import Mathlib

/-!
Verification development for the a2a-collaborator host agent
(src/workshop-module-3/module-3/a2a/a2a-collaborator-agent/agent.py).

The file shallowly embeds the orchestration core of `HostAgent`:
the remote-call invoker `_send_message_impl` (request deduplication,
narrow retry policy, response aggregation), the dispatch gate `stream`
(rate limiting and throttling backoff), the discovery loop
`_async_init_components` (bounded-retry capability fetch), and
`host_agent_task` (queue-based error propagation).  Network effects are
represented by explicit oracles giving the outcome of each attempt, and
each embedded operation returns a trace recording the calls it made and
the delays it slept.
-/

namespace NetAIOps

/-- ASCII lowering of one character; the Python `str.lower()` in the
error classification only matters on ASCII letters because both search
patterns are ASCII. -/
def lowerAscii (c : Char) : Char :=
  if 'A' ≤ c ∧ c ≤ 'Z' then Char.ofNat (c.toNat + 32) else c

/-- `str(e).lower()` on the character list of a string. -/
def strLower (s : String) : String :=
  ⟨s.data.map lowerAscii⟩

/-- Whether `pat` is an initial segment of `l`. -/
def listBegins : List Char → List Char → Bool
  | _, [] => true
  | [], _ :: _ => false
  | c :: cs, p :: ps => c == p && listBegins cs ps

/-- Whether `pat` occurs as a contiguous run inside `l`. -/
def listHasSub (pat : List Char) : List Char → Bool
  | [] => pat.isEmpty
  | c :: rest => listBegins (c :: rest) pat || listHasSub pat rest

/-- Substring test: mirrors the Python `pat in s` membership used for
error classification. -/
def containsSub (s pat : String) : Bool :=
  listHasSub pat.data s.data

/-- Error classification used by both `HostAgent.stream` and
`HostAgent._send_message_impl`:
`"throttling" in str(e).lower() or "too many requests" in str(e).lower()`. -/
def isThrottlingError (e : String) : Bool :=
  containsSub (strLower e) "throttling" || containsSub (strLower e) "too many requests"

/-- The dedup key built by `_send_message_impl`:
`request_key = f"{agent_name}:{hash(task)}"`.  Python's `hash` is an
unspecified total function `String → Int`, passed in as a parameter. -/
def requestKey (pyHash : String → Int) (agentName task : String) : String :=
  agentName ++ ":" ++ toString (pyHash task)

/-- Mutable state of one `HostAgent` that `_send_message_impl` touches:
`self.completed_requests` (the dedup set, modelled as a list of keys) and
`self.remote_agent_connections` (modelled by its set of registered agent
names; a registered value is always a constructed
`RemoteAgentConnections` object, hence truthy, so the
`if not client` branch of the source is unreachable). -/
structure HostState where
  completedRequests : List String
  connections : List String
deriving DecidableEq, Repr

/-- Structural shape of a `SendMessageResponse` as inspected by
`_send_message_impl`: either it fails the
`isinstance(send_response.root, SendMessageSuccessResponse)` /
`isinstance(send_response.root.result, Task)` check, or it is a task
whose artifacts each carry a list of parts. -/
inductive A2AResponse where
  | invalid : A2AResponse
  | task (artifacts : List (List String)) : A2AResponse
deriving DecidableEq, Repr

/-- Outcome of one `client.send_message(message_request)` attempt:
a response, or an exception with message `msg`. -/
inductive SendResult where
  | resp (r : A2AResponse) : SendResult
  | exn (msg : String) : SendResult
deriving DecidableEq, Repr

/-- Whether an attempt outcome is an exception classified as throttling. -/
def attemptThrottles : SendResult → Bool
  | .exn m => isThrottlingError m
  | .resp _ => false

/-- The string returned by `_send_message_impl`, one constructor per
return site of the source (the `aggregated` constructor carries the
ordered parts that `json.dumps(resp, indent=2)` renders). -/
inductive InvokeReply where
  | duplicateSentinel : InvokeReply
  | agentNotFound (name : String) : InvokeReply
  | nonSuccessReply : InvokeReply
  | aggregated (parts : List String) : InvokeReply
  | noResponse : InvokeReply
  | errorText (name msg : String) : InvokeReply
  | exhausted (name : String) : InvokeReply
deriving DecidableEq, Repr

/-- Rendering of `InvokeReply` back to the source's literal strings;
`dumps` stands for `json.dumps(resp, indent=2)` on the nonempty parts
list. -/
def replyText (dumps : List String → String) : InvokeReply → String
  | .duplicateSentinel =>
      "Request already processed - avoiding duplicate call to prevent multiple invocations"
  | .agentNotFound n => "Agent " ++ n ++ " not found"
  | .nonSuccessReply =>
      "Received a non-success or non-task response. Request completed to prevent duplicate calls."
  | .aggregated ps => dumps ps
  | .noResponse => "No response received"
  | .errorText n m => "Error sending message to " ++ n ++ ": " ++ m
  | .exhausted n => "Error: Failed to send message to " ++ n ++ " after 2 attempts"

/-- The artifact-parts extraction loop of `_send_message_impl`:
`for artifact in artifacts: if artifact.get("parts"): resp.extend(parts)`
(an absent `parts` key is the empty list; the Python truthiness test
skips empty lists, which extend `resp` by nothing anyway). -/
def extractParts : List (List String) → List String
  | [] => []
  | a :: rest => (if a.isEmpty then [] else a) ++ extractParts rest

/-- `max_retries = 1` of `_send_message_impl` (reduced from 3 to 1 in the
source to minimize duplicate calls). -/
def a2aMaxRetries : Nat := 1

/-- `base_delay = 2.0` of `_send_message_impl`. -/
def a2aBaseDelay : ℚ := 2

/-- Trace of one invocation: the reply returned, the number of
`client.send_message` network calls made, and the backoff delays slept. -/
structure SendTrace where
  reply : InvokeReply
  sends : Nat
  sleeps : List ℚ
deriving DecidableEq, Repr

/-- The `for retry_count in range(max_retries + 1)` loop of
`_send_message_impl`.  The fuel argument is the number of loop
iterations still available, so the current `retry_count` is
`a2aMaxRetries - fuel` when the remaining fuel is `fuel + 1`; on a
retry iteration (`retry_count > 0`) the loop first sleeps
`base_delay * 2 ** (retry_count - 1)`.  `send k` is the outcome of the
attempt with `retry_count = k`.  Fuel 0 is the loop falling through,
returning the source's final error string (unreachable from the entry
fuel because the last iteration always returns). -/
def sendLoopGo (agentName : String) (send : Nat → SendResult) : Nat → SendTrace
  | 0 => ⟨.exhausted agentName, 0, []⟩
  | fuel + 1 =>
    let rc := a2aMaxRetries - fuel
    let preSleep : List ℚ := if rc = 0 then [] else [a2aBaseDelay * 2 ^ (rc - 1)]
    match send rc with
    | .resp .invalid => ⟨.nonSuccessReply, 1, preSleep⟩
    | .resp (.task arts) =>
      let ps := extractParts arts
      ⟨if ps.isEmpty then .noResponse else .aggregated ps, 1, preSleep⟩
    | .exn msg =>
      if isThrottlingError msg && decide (rc < a2aMaxRetries) then
        let rest := sendLoopGo agentName send fuel
        ⟨rest.reply, rest.sends + 1, preSleep ++ rest.sleeps⟩
      else
        ⟨.errorText agentName msg, 1, preSleep⟩

/-- `HostAgent._send_message_impl(agent_name, task)`.  In source order:
build `request_key`; if it is in `completed_requests` return the
duplicate sentinel; if the agent is not in `remote_agent_connections`
return the not-found string; otherwise add the key to
`completed_requests` (before any network call) and run the retry loop.
The attempt outcomes are supplied by the oracle `send`. -/
def sendMessageImpl (pyHash : String → Int) (send : Nat → SendResult)
    (st : HostState) (agentName task : String) : SendTrace × HostState :=
  let key := requestKey pyHash agentName task
  if key ∈ st.completedRequests then
    (⟨.duplicateSentinel, 0, []⟩, st)
  else if agentName ∉ st.connections then
    (⟨.agentNotFound agentName, 0, []⟩, st)
  else
    let st' : HostState := { st with completedRequests := key :: st.completedRequests }
    (sendLoopGo agentName send (a2aMaxRetries + 1), st')

/-- Sequential execution of a list of invoker submissions, each with its
own attempt oracle, threading the host state (the cooperative scheduler
runs the synchronous dedup check and insert of `_send_message_impl`
without an intervening suspension point, so concurrent submissions
interleave at whole-invocation granularity with respect to the dedup
set). -/
def runSubmissions (pyHash : String → Int) (st : HostState) :
    List ((String × String) × (Nat → SendResult)) → List SendTrace × HostState
  | [] => ([], st)
  | ((a, t), send) :: rest =>
    let r := sendMessageImpl pyHash send st a t
    let rs := runSubmissions pyHash r.2 rest
    (r.1 :: rs.1, rs.2)

/-- Total number of network calls in a list of invocation traces. -/
def totalSends (trs : List SendTrace) : Nat :=
  (trs.map SendTrace.sends).sum

/-! ### Dispatch gate: `HostAgent.stream` -/

/-- `max_retries = 3` of `HostAgent.stream`. -/
def hostMaxRetries : Nat := 3

/-- `base_delay = 2.0` of `HostAgent.stream`. -/
def hostBaseDelay : ℚ := 2

/-- `self._min_delay_between_calls = 1.0` of `HostAgent.__init__`. -/
def hostMinDelay : ℚ := 1

/-- Outcome of one `self.agent.stream_async(user_query)` consumption:
either the stream completes after yielding `chunks`, or it raises an
exception with message `msg` after having yielded `chunks`. -/
inductive StreamAttempt where
  | ok (chunks : List String) : StreamAttempt
  | err (chunks : List String) (msg : String) : StreamAttempt
deriving DecidableEq, Repr

/-- A chunk yielded by `HostAgent.stream` to its consumer: a data chunk
from the engine, the backoff notice (carrying the delay and the retry
number of the notice
`"Request throttled. Retrying in {d}s... (attempt {k}/{max})"`), the
terminal throttling notice
`"Error: Request throttled after {max} retries. ..."`, or the terminal
error notice `"Error: {e}"`. -/
inductive GateEvent where
  | data (s : String) : GateEvent
  | retryNotice (delay : ℚ) (attempt : Nat) : GateEvent
  | throttleExhausted (maxRetries : Nat) : GateEvent
  | errorNotice (msg : String) : GateEvent
deriving DecidableEq, Repr

/-- Trace of one `HostAgent.stream` execution: the chunks yielded in
order, the backoff delays slept, and the number of
`self.agent.stream_async` calls started. -/
structure GateTrace where
  events : List GateEvent
  sleeps : List ℚ
  calls : Nat
deriving DecidableEq, Repr

/-- The `while retry_count <= max_retries` loop of `HostAgent.stream`.
`retriesLeft = max_retries - retry_count`; `attempts i` is the outcome
of the `i`-th `stream_async` call.  On a throttling failure the counter
increments: if it would exceed `max_retries` (`retriesLeft = 0`) the
terminal throttling notice is yielded and the loop breaks; otherwise a
retry notice for `base_delay * 2 ** (retry_count - 1)` is yielded, the
delay is slept, and the call is retried.  A non-throttling failure
yields the single terminal error notice and breaks. -/
def gateGo (attempts : Nat → StreamAttempt) : Nat → Nat → GateTrace
  | 0, callIdx =>
    match attempts callIdx with
    | .ok cs => ⟨cs.map .data, [], 1⟩
    | .err cs msg =>
      if isThrottlingError msg then
        ⟨cs.map .data ++ [.throttleExhausted hostMaxRetries], [], 1⟩
      else
        ⟨cs.map .data ++ [.errorNotice msg], [], 1⟩
  | r + 1, callIdx =>
    match attempts callIdx with
    | .ok cs => ⟨cs.map .data, [], 1⟩
    | .err cs msg =>
      if isThrottlingError msg then
        let backoff := hostBaseDelay * 2 ^ (hostMaxRetries - (r + 1))
        let rest := gateGo attempts r (callIdx + 1)
        ⟨cs.map .data ++ .retryNotice backoff (hostMaxRetries - r) :: rest.events,
          backoff :: rest.sleeps, rest.calls + 1⟩
      else
        ⟨cs.map .data ++ [.errorNotice msg], [], 1⟩

/-- The retry portion of `HostAgent.stream` entered with
`retry_count = 0`. -/
def hostStreamGate (attempts : Nat → StreamAttempt) : GateTrace :=
  gateGo attempts hostMaxRetries 0

/-- The non-data chunks of a gate trace (the user-visible notices). -/
def gateNotices : List GateEvent → List GateEvent
  | [] => []
  | .data _ :: rest => gateNotices rest
  | .retryNotice d k :: rest => .retryNotice d k :: gateNotices rest
  | .throttleExhausted m :: rest => .throttleExhausted m :: gateNotices rest
  | .errorNotice m :: rest => .errorNotice m :: gateNotices rest

/-- The rate-limiting prologue of `HostAgent.stream`, run while holding
a permit of `self._bedrock_semaphore`: with `now = time.time()` and
`lastCallTime = self._last_api_call_time`, if less than
`_min_delay_between_calls` has elapsed it sleeps the remaining delta;
it then records the call start (`self._last_api_call_time =
time.time()`, i.e. `now` advanced by the slept delta).  Returns
`(sleptDelay, recordedCallStart)`. -/
def rateLimitGate (lastCallTime now : ℚ) : ℚ × ℚ :=
  let timeSinceLastCall := now - lastCallTime
  if timeSinceLastCall < hostMinDelay then
    let delay := hostMinDelay - timeSinceLastCall
    (delay, now + delay)
  else
    (0, now)

/-- Two concurrent executions of the rate-limiting prologue under the
interleaving `read A; read B; sleep A; sleep B; write A; write B`,
which the source permits: `Semaphore(2)` admits both callers at once,
and the `await asyncio.sleep(delay)` suspends each caller between its
read of `self._last_api_call_time` and its write of it, so the second
caller's read sees the same stale timestamp `last0` as the first
caller's.  Returns the two recorded call starts. -/
def staleReadCallStarts (last0 enterA enterB : ℚ) : ℚ × ℚ :=
  ((rateLimitGate last0 enterA).2, (rateLimitGate last0 enterB).2)

/-! ### Discovery: `HostAgent._async_init_components` -/

/-- Outcome of one `card_resolver.get_agent_card()` attempt: an agent
card (its `name` and `description`), or a raised error (connection,
timeout, HTTP-status or other — all four handlers share the same
retry/backoff policy). -/
inductive FetchOutcome where
  | ok (name description : String) : FetchOutcome
  | fail (msg : String) : FetchOutcome
deriving DecidableEq, Repr

/-- Per-address discovery result: fetch attempts made, delays slept
between attempts, and the registered card if any. -/
structure AddrResult where
  attemptsMade : Nat
  sleeps : List ℚ
  card : Option (String × String)
deriving DecidableEq, Repr

/-- The `for attempt in range(max_retries)` card-fetch loop
(`max_retries = 3`, `retry_delay = 2`, doubling after each failed
attempt).  The fuel is the number of attempts remaining; on the last
attempt a failure is re-raised, caught by the per-address handler, and
the address is skipped (`card = none`). -/
def cardFetchGo (fetch : Nat → FetchOutcome) (attemptIdx : Nat) (retryDelay : ℚ) :
    Nat → AddrResult
  | 0 => ⟨0, [], none⟩
  | left + 1 =>
    match fetch attemptIdx with
    | .ok n d => ⟨1, [], some (n, d)⟩
    | .fail _ =>
      match left with
      | 0 => ⟨1, [], none⟩
      | _ + 1 =>
        let rest := cardFetchGo fetch (attemptIdx + 1) (retryDelay * 2) left
        ⟨rest.attemptsMade + 1, retryDelay :: rest.sleeps, rest.card⟩

/-- Discovery of a single configured address: up to 3 card-fetch
attempts starting with a 2-second delay.  (The preceding best-effort
`/health` probe catches all its own failures and never affects the
result.) -/
def discoverAddress (fetch : Nat → FetchOutcome) : AddrResult :=
  cardFetchGo fetch 0 2 3

/-- The sequential per-address loop of `_async_init_components`: every
configured address is processed, whatever happened to the previous ones
(each address's failures are caught by its own handler and recorded in
`connection_results`). -/
def runDiscovery (fetchers : List (Nat → FetchOutcome)) : List AddrResult :=
  fetchers.map discoverAddress

/-- The registry contents after discovery: the cards of the successful
addresses, in registration order (`self.cards[card.name] = card`). -/
def discoveryRegistry (rs : List AddrResult) : List (String × String) :=
  rs.filterMap AddrResult.card

/-- `self.agents = "\n".join(agent_info) if agent_info else "No agents
found"`; `render` stands for the `json.dumps({"name": ...,
"description": ...})` line built per card. -/
def agentsSummary (render : String × String → String)
    (registry : List (String × String)) : String :=
  if registry.isEmpty then "No agents found"
  else String.intercalate "\n" (registry.map render)

/-! ### `host_agent_task` -/

/-- What the producing loop inside the `try` of `host_agent_task` does:
either `agent.stream` completes after the chunks are put on the queue,
or an exception is raised after some chunks were put (agent creation
failures are the `raised [] msg` case). -/
inductive ProducerOutcome where
  | completed (chunks : List String) : ProducerOutcome
  | raised (chunks : List String) (msg : String) : ProducerOutcome
deriving DecidableEq, Repr

/-- Observable effect of one `host_agent_task` run on its
`response_queue`: the items put, and whether `finish()` was called. -/
structure QueueTrace where
  items : List String
  finished : Bool
deriving DecidableEq, Repr

/-- `host_agent_task`: if the gateway access token is absent it raises
`RuntimeError("Gateway Access token is none")` before entering the
`try`/`finally`, so nothing is put and `finish()` is not called
(modelled as `Except.error`).  Otherwise the `try` body runs; any
exception is caught and put as `f"Error: {str(e)}"`, and the `finally`
always calls `finish()`. -/
def hostAgentTask (gatewayToken : Option String) (outcome : ProducerOutcome) :
    Except String QueueTrace :=
  match gatewayToken with
  | none => Except.error "Gateway Access token is none"
  | some _ =>
    match outcome with
    | .completed cs => Except.ok ⟨cs, true⟩
    | .raised cs msg => Except.ok ⟨cs ++ ["Error: " ++ msg], true⟩

/-! ### Helper lemmas -/

/-- Data chunks are invisible to `gateNotices`. -/
theorem gateNotices_data_append (cs : List String) (l : List GateEvent) :
    gateNotices (cs.map .data ++ l) = gateNotices l := by
  induction cs with
  | nil => rfl
  | cons c cs ih => simp [gateNotices, ih]

/-- The extraction loop concatenates the parts of all artifacts in
order (the truthiness check only skips lists that are empty anyway). -/
theorem extractParts_eq_flatten (arts : List (List String)) :
    extractParts arts = arts.flatten := by
  induction arts with
  | nil => rfl
  | cons a rest ih =>
    by_cases h : a.isEmpty <;>
      simp_all [extractParts, List.isEmpty_iff]

/-- A duplicate key short-circuits `_send_message_impl`: the sentinel is
returned, no network call happens, and the state is untouched. -/
theorem sendMessageImpl_dup (pyHash : String → Int) (send : Nat → SendResult)
    (st : HostState) (a t : String)
    (h : requestKey pyHash a t ∈ st.completedRequests) :
    sendMessageImpl pyHash send st a t = (⟨.duplicateSentinel, 0, []⟩, st) := by
  simp [sendMessageImpl, h]

/-- A fresh key to a registered agent enters the dispatch path: the
key is added to the dedup set (before any network call) and the retry
loop runs. -/
theorem sendMessageImpl_fresh (pyHash : String → Int) (send : Nat → SendResult)
    (st : HostState) (a t : String)
    (hconn : a ∈ st.connections)
    (hfresh : requestKey pyHash a t ∉ st.completedRequests) :
    sendMessageImpl pyHash send st a t =
      (sendLoopGo a send (a2aMaxRetries + 1),
        { st with completedRequests := requestKey pyHash a t :: st.completedRequests }) := by
  simp [sendMessageImpl, hfresh, hconn]

/-- The final iteration of the invoker's retry loop sleeps the
`base_delay * 2 ** 0` backoff and makes exactly one network call,
whatever its outcome. -/
theorem sendLoopGo_final (a : String) (send : Nat → SendResult) :
    (sendLoopGo a send 1).sends = 1 ∧ (sendLoopGo a send 1).sleeps = [a2aBaseDelay] := by
  rcases h : send 1 with r | m
  · rcases r with _ | arts <;> simp [sendLoopGo, h, a2aMaxRetries]
  · simp [sendLoopGo, h, a2aMaxRetries]

/-- When the first attempt is not a throttling failure, the invoker's
retry loop stops after exactly one network call and no backoff sleep. -/
theorem sendLoopGo_entry_not_throttle (a : String) (send : Nat → SendResult)
    (hnt : attemptThrottles (send 0) = false) :
    (sendLoopGo a send (a2aMaxRetries + 1)).sends = 1
    ∧ (sendLoopGo a send (a2aMaxRetries + 1)).sleeps = [] := by
  rcases h0 : send 0 with r | m
  · rcases r with _ | arts <;> simp [sendLoopGo, h0, a2aMaxRetries]
  · have hm : isThrottlingError m = false := by
      rw [h0] at hnt
      exact hnt
    simp [sendLoopGo, h0, a2aMaxRetries, hm]

/-- Once the key is present, any run of further submissions of the same
pair returns only sentinels and leaves the state untouched. -/
theorem runSubmissions_dup (pyHash : String → Int) (st : HostState) (a t : String)
    (h : requestKey pyHash a t ∈ st.completedRequests) :
    ∀ sends : List (Nat → SendResult),
      runSubmissions pyHash st (sends.map fun s => ((a, t), s)) =
        (sends.map fun _ => (⟨.duplicateSentinel, 0, []⟩ : SendTrace), st) := by
  intro sends
  induction sends with
  | nil => rfl
  | cons s sends ih =>
    simp [runSubmissions, sendMessageImpl_dup pyHash s st a t h, ih]

/-! ### Claim theorems -/

/-- Claim C3: if every attempt of the dispatch gate's reasoning-engine
call fails with a transient-overload (throttling) error, the gate makes
exactly `max_retries + 1 = 4` engine calls (the initial call plus
exactly 3 retries), sleeping the backoff delays 2s, 4s, 8s
(`base_delay * 2 ** (attempt - 1)`), yielding a user-visible retry
notice before each retry and one final terminal notice, and ends the
stream by returning (no exception escapes the loop) without starting a
further retry. -/
theorem c3_gate_throttle_exhaustion (attempts : Nat → StreamAttempt)
    (cs : Nat → List String) (msg : Nat → String)
    (hatt : ∀ i, attempts i = .err (cs i) (msg i))
    (hthr : ∀ i, isThrottlingError (msg i) = true) :
    (hostStreamGate attempts).calls = hostMaxRetries + 1
    ∧ (hostStreamGate attempts).sleeps = [2, 4, 8]
    ∧ gateNotices (hostStreamGate attempts).events =
        [.retryNotice 2 1, .retryNotice 4 2, .retryNotice 8 3,
          .throttleExhausted hostMaxRetries] := by
  have h : hostStreamGate attempts =
      ⟨(cs 0).map .data ++ .retryNotice 2 1 ::
          ((cs 1).map .data ++ .retryNotice 4 2 ::
            ((cs 2).map .data ++ .retryNotice 8 3 ::
              ((cs 3).map .data ++ [.throttleExhausted hostMaxRetries]))),
        [2, 4, 8], 4⟩ := by
    simp only [hostStreamGate, hostMaxRetries, gateGo, hatt 0, hatt 1, hatt 2, hatt 3,
      hthr 0, hthr 1, hthr 2, hthr 3, hostBaseDelay, if_true]
    norm_num
  rw [h]
  refine ⟨rfl, rfl, ?_⟩
  simp only [gateNotices_data_append, gateNotices]

/-- Witness for C3 at a concrete all-throttling oracle. -/
theorem c3_gate_throttle_exhaustion_witness :
    (hostStreamGate (fun _ => .err [] "ThrottlingException")).calls = hostMaxRetries + 1
    ∧ (hostStreamGate (fun _ => .err [] "ThrottlingException")).sleeps = [2, 4, 8]
    ∧ gateNotices (hostStreamGate (fun _ => .err [] "ThrottlingException")).events =
        [.retryNotice 2 1, .retryNotice 4 2, .retryNotice 8 3,
          .throttleExhausted hostMaxRetries] :=
  c3_gate_throttle_exhaustion (fun _ => .err [] "ThrottlingException")
    (fun _ => []) (fun _ => "ThrottlingException")
    (fun _ => rfl)
    (fun _ => (by decide : isThrottlingError "ThrottlingException" = true))

/-- Claim C4 as amended: for two consecutive calls whose rate-limiting
prologues are not interleaved — the second prologue reads the call
start recorded by the first, as in any serialized schedule — the second
call never starts less than `_min_delay_between_calls = 1` second after
the previously recorded call start: the recorded start of the next call
is at least `hostMinDelay` after the previous one, the gate sleeps
exactly the remaining delta when less than the minimum has elapsed, and
the call starts right after that sleep.  (`lastCallTime` is the
previous call's recorded start, `now` the time the gate is entered; the
interleaved two-permit schedule is the subject of the counterexample.) -/
theorem c4_gate_min_spacing (lastCallTime now : ℚ) :
    hostMinDelay ≤ (rateLimitGate lastCallTime now).2 - lastCallTime
    ∧ (now - lastCallTime < hostMinDelay →
        (rateLimitGate lastCallTime now).1 = hostMinDelay - (now - lastCallTime))
    ∧ (rateLimitGate lastCallTime now).2 = now + (rateLimitGate lastCallTime now).1 := by
  refine ⟨?_, ?_, ?_⟩
  · by_cases h : now - lastCallTime < hostMinDelay
    · simp only [rateLimitGate, h, if_true]
      linarith
    · simp only [rateLimitGate, h, if_false]
      linarith [not_lt.mp h]
  · intro hc
    simp only [rateLimitGate, hc, if_true]
  · by_cases h : now - lastCallTime < hostMinDelay
    · simp only [rateLimitGate, h, if_true]
    · simp only [rateLimitGate, h, if_false]
      ring

/-- Witness for C4 at `lastCallTime = 10`, `now = 21/2` (half a second
elapsed). -/
theorem c4_gate_min_spacing_witness :
    hostMinDelay ≤ (rateLimitGate 10 (21/2)).2 - 10
    ∧ ((21/2 : ℚ) - 10 < hostMinDelay →
        (rateLimitGate 10 (21/2)).1 = hostMinDelay - ((21/2 : ℚ) - 10))
    ∧ (rateLimitGate 10 (21/2)).2 = (21/2 : ℚ) + (rateLimitGate 10 (21/2)).1 :=
  c4_gate_min_spacing 10 (21/2)

/-- Counterexample to claim C4 as stated: the universal call-start
spacing guarantee fails on a real schedule.  With the last recorded
call start at 0, caller A entering the prologue at t = 1/2 and caller B
at t = 3/5 — both admitted by the two permits of
`self._bedrock_semaphore`, and B reading `self._last_api_call_time`
while A is suspended in `await asyncio.sleep(delay)` between its read
and its write — both callers compute their delay from the same stale
timestamp 0 and start their engine calls at the same instant t = 1:
the two consecutive call starts are 0 apart, less than the configured
minimum spacing of 1 second. -/
theorem c4_counterexample :
    (staleReadCallStarts 0 (1/2) (3/5)).1 = 1
    ∧ (staleReadCallStarts 0 (1/2) (3/5)).2 = 1
    ∧ (staleReadCallStarts 0 (1/2) (3/5)).2 - (staleReadCallStarts 0 (1/2) (3/5)).1 <
        hostMinDelay := by
  refine ⟨?_, ?_, ?_⟩ <;> norm_num [staleReadCallStarts, rateLimitGate, hostMinDelay]

/-- Claim C5: a reasoning-engine failure not classified as transient
overload makes the gate yield exactly one terminal error notice
immediately and end the stream, with no retry (one engine call, no
backoff sleep). -/
theorem c5_gate_nonthrottle_terminal (attempts : Nat → StreamAttempt)
    (cs : List String) (msg : String)
    (h0 : attempts 0 = .err cs msg)
    (hnt : isThrottlingError msg = false) :
    hostStreamGate attempts = ⟨cs.map .data ++ [.errorNotice msg], [], 1⟩ := by
  simp [hostStreamGate, hostMaxRetries, gateGo, h0, hnt]

/-- Witness for C5 at a concrete non-throttling error. -/
theorem c5_gate_nonthrottle_terminal_witness :
    hostStreamGate (fun _ => .err ["partial"] "AccessDeniedException") =
      ⟨[.data "partial", .errorNotice "AccessDeniedException"], [], 1⟩ :=
  c5_gate_nonthrottle_terminal (fun _ => .err ["partial"] "AccessDeniedException")
    ["partial"] "AccessDeniedException" rfl (by decide)

/-- Claim C6: discovery of an address whose capability-descriptor fetch
fails on every attempt makes exactly 3 fetch attempts with delays 2s
then 4s between them, registers no descriptor for that address, and
continues with the remaining addresses (the results of the other
addresses are exactly what they would be on their own); an empty
registry yields the "No agents found" summary rather than an error. -/
theorem c6_discovery_bounded_retry (fetchFail : Nat → FetchOutcome)
    (msg : Nat → String) (pre post : List (Nat → FetchOutcome))
    (render : String × String → String)
    (hf : ∀ k, fetchFail k = .fail (msg k)) :
    discoverAddress fetchFail = ⟨3, [2, 4], none⟩
    ∧ runDiscovery (pre ++ fetchFail :: post) =
        runDiscovery pre ++ (⟨3, [2, 4], none⟩ : AddrResult) :: runDiscovery post
    ∧ discoveryRegistry (runDiscovery (pre ++ fetchFail :: post)) =
        discoveryRegistry (runDiscovery pre) ++ discoveryRegistry (runDiscovery post)
    ∧ agentsSummary render [] = "No agents found" := by
  have h1 : discoverAddress fetchFail = ⟨3, [2, 4], none⟩ := by
    simp [discoverAddress, cardFetchGo, hf 0, hf 1, hf 2]
    norm_num
  have h2 : runDiscovery (pre ++ fetchFail :: post) =
      runDiscovery pre ++ (⟨3, [2, 4], none⟩ : AddrResult) :: runDiscovery post := by
    simp [runDiscovery, h1]
  refine ⟨h1, h2, ?_, rfl⟩
  rw [h2]
  simp [discoveryRegistry]

/-- Witness for C6: a dead address followed by a live one. -/
theorem c6_discovery_bounded_retry_witness :
    discoverAddress (fun _ => .fail "ConnectError") = ⟨3, [2, 4], none⟩
    ∧ runDiscovery ([] ++ (fun _ => .fail "ConnectError") ::
          [fun _ => .ok "Performance_Agent" "NetOps performance analysis"]) =
        runDiscovery [] ++ (⟨3, [2, 4], none⟩ : AddrResult) ::
          runDiscovery [fun _ => .ok "Performance_Agent" "NetOps performance analysis"]
    ∧ discoveryRegistry (runDiscovery ([] ++ (fun _ => .fail "ConnectError") ::
          [fun _ => .ok "Performance_Agent" "NetOps performance analysis"])) =
        discoveryRegistry (runDiscovery []) ++
          discoveryRegistry (runDiscovery
            [fun _ => .ok "Performance_Agent" "NetOps performance analysis"])
    ∧ agentsSummary (fun c => c.1) [] = "No agents found" :=
  c6_discovery_bounded_retry (fun _ => .fail "ConnectError") (fun _ => "ConnectError")
    [] [fun _ => .ok "Performance_Agent" "NetOps performance analysis"]
    (fun c => c.1) (fun _ => rfl)

/-- Claim C7: the remote-call invoker retries a failed RPC at most once
(`max_retries = 1`, at most 2 network calls), and only when the failure
is a throttling exception; a non-throttling exception on the first
attempt is terminal and returned as the error string, and a malformed or
non-success response is terminal with no retry at all. -/
theorem c7_invoker_narrow_retry (pyHash : String → Int) (send : Nat → SendResult)
    (st : HostState) (a t : String)
    (hconn : a ∈ st.connections)
    (hfresh : requestKey pyHash a t ∉ st.completedRequests) :
    (sendMessageImpl pyHash send st a t).1.sends ≤ a2aMaxRetries + 1
    ∧ (attemptThrottles (send 0) = false →
        (sendMessageImpl pyHash send st a t).1.sends = 1)
    ∧ (attemptThrottles (send 0) = true →
        (sendMessageImpl pyHash send st a t).1.sends = 2
          ∧ (sendMessageImpl pyHash send st a t).1.sleeps = [a2aBaseDelay])
    ∧ (∀ m, send 0 = .exn m → isThrottlingError m = false →
        (sendMessageImpl pyHash send st a t).1 = ⟨.errorText a m, 1, []⟩)
    ∧ (send 0 = .resp .invalid →
        (sendMessageImpl pyHash send st a t).1 = ⟨.nonSuccessReply, 1, []⟩) := by
  rw [sendMessageImpl_fresh pyHash send st a t hconn hfresh]
  refine ⟨?_, ?_, ?_, ?_, ?_⟩
  · rcases h0 : send 0 with (_ | arts) | m
    · simp [sendLoopGo, h0, a2aMaxRetries]
    · simp [sendLoopGo, h0, a2aMaxRetries]
    · cases hb : isThrottlingError m
      · simp [sendLoopGo, h0, a2aMaxRetries, hb]
      · rcases h1 : send 1 with (_ | arts) | m1 <;>
          simp [sendLoopGo, h0, h1, a2aMaxRetries, hb]
  · intro hc
    exact (sendLoopGo_entry_not_throttle a send hc).1
  · intro hc
    rcases h0 : send 0 with r | m
    · rw [h0] at hc
      simp [attemptThrottles] at hc
    · rw [h0] at hc
      simp only [attemptThrottles] at hc
      constructor
      · rcases h1 : send 1 with (_ | arts) | m1 <;>
          simp [sendLoopGo, h0, h1, a2aMaxRetries, hc]
      · rcases h1 : send 1 with (_ | arts) | m1 <;>
          simp [sendLoopGo, h0, h1, a2aMaxRetries, hc, a2aBaseDelay]
  · intro m h0 hnt
    simp [sendLoopGo, h0, a2aMaxRetries, hnt]
  · intro h0
    simp [sendLoopGo, h0, a2aMaxRetries]

/-- Witness for C7 at a throttling first attempt to a registered agent. -/
theorem c7_invoker_narrow_retry_witness :
    (sendMessageImpl (fun _ => 0) (fun _ => .exn "throttling") ⟨[], ["A"]⟩ "A" "x").1.sends ≤
        a2aMaxRetries + 1
    ∧ (attemptThrottles ((fun _ : Nat => SendResult.exn "throttling") 0) = false →
        (sendMessageImpl (fun _ => 0) (fun _ => .exn "throttling") ⟨[], ["A"]⟩ "A" "x").1.sends = 1)
    ∧ (attemptThrottles ((fun _ : Nat => SendResult.exn "throttling") 0) = true →
        (sendMessageImpl (fun _ => 0) (fun _ => .exn "throttling") ⟨[], ["A"]⟩ "A" "x").1.sends = 2
          ∧ (sendMessageImpl (fun _ => 0) (fun _ => .exn "throttling")
              ⟨[], ["A"]⟩ "A" "x").1.sleeps = [a2aBaseDelay])
    ∧ (∀ m, (fun _ : Nat => SendResult.exn "throttling") 0 = .exn m →
        isThrottlingError m = false →
        (sendMessageImpl (fun _ => 0) (fun _ => .exn "throttling") ⟨[], ["A"]⟩ "A" "x").1 =
          ⟨.errorText "A" m, 1, []⟩)
    ∧ ((fun _ : Nat => SendResult.exn "throttling") 0 = .resp .invalid →
        (sendMessageImpl (fun _ => 0) (fun _ => .exn "throttling") ⟨[], ["A"]⟩ "A" "x").1 =
          ⟨.nonSuccessReply, 1, []⟩) :=
  c7_invoker_narrow_retry (fun _ => 0) (fun _ => .exn "throttling") ⟨[], ["A"]⟩ "A" "x"
    (by decide) (by decide)

/-- Claim C8: on a structurally successful RPC response the invoker
returns the single aggregated result built from the ordered parts of all
artifacts of the response (one network call), and when the response
carries no artifacts — and more generally no extractable parts — it
returns the literal fixed "No response received" result. -/
theorem c8_invoker_aggregation (pyHash : String → Int) (send : Nat → SendResult)
    (st : HostState) (a t : String) (arts : List (List String))
    (dumps : List String → String)
    (hconn : a ∈ st.connections)
    (hfresh : requestKey pyHash a t ∉ st.completedRequests)
    (h0 : send 0 = .resp (.task arts)) :
    (sendMessageImpl pyHash send st a t).1.sends = 1
    ∧ (sendMessageImpl pyHash send st a t).1.reply =
        (if (extractParts arts).isEmpty then .noResponse
          else .aggregated (extractParts arts))
    ∧ extractParts arts = arts.flatten
    ∧ (arts = [] → (sendMessageImpl pyHash send st a t).1.reply = .noResponse)
    ∧ replyText dumps .noResponse = "No response received" := by
  rw [sendMessageImpl_fresh pyHash send st a t hconn hfresh]
  refine ⟨?_, ?_, extractParts_eq_flatten arts, ?_, rfl⟩
  · simp [sendLoopGo, h0, a2aMaxRetries]
  · simp [sendLoopGo, h0, a2aMaxRetries]
  · intro hr
    cases hr
    simp [sendLoopGo, h0, a2aMaxRetries, extractParts]

/-- Witness for C8 at an artifact-free response. -/
theorem c8_invoker_aggregation_witness :
    (sendMessageImpl (fun _ => 0) (fun _ => .resp (.task [])) ⟨[], ["A"]⟩ "A" "x").1.sends = 1
    ∧ (sendMessageImpl (fun _ => 0) (fun _ => .resp (.task [])) ⟨[], ["A"]⟩ "A" "x").1.reply =
        (if (extractParts []).isEmpty then .noResponse else .aggregated (extractParts []))
    ∧ extractParts [] = List.flatten []
    ∧ (([] : List (List String)) = [] →
        (sendMessageImpl (fun _ => 0) (fun _ => .resp (.task [])) ⟨[], ["A"]⟩ "A" "x").1.reply =
          .noResponse)
    ∧ replyText (fun ps => String.intercalate "," ps) .noResponse = "No response received" :=
  c8_invoker_aggregation (fun _ => 0) (fun _ => .resp (.task [])) ⟨[], ["A"]⟩ "A" "x" []
    (fun ps => String.intercalate "," ps) (by decide) (by decide) rfl

/-- Claim C10: duplicate detection distinguishes requests only by
`(agent_name, hash(task))`: for two distinct tasks to the same
registered agent whose hash values coincide, the second invocation
returns the duplicate sentinel, makes no network call, and leaves the
state untouched, even though the tasks differ. -/
theorem c10_dedup_by_hash_only (pyHash : String → Int) (s1 s2 : Nat → SendResult)
    (st : HostState) (a t1 t2 : String)
    (_hne : t1 ≠ t2) (hcol : pyHash t1 = pyHash t2)
    (hconn : a ∈ st.connections)
    (hfresh : requestKey pyHash a t1 ∉ st.completedRequests) :
    (sendMessageImpl pyHash s2 (sendMessageImpl pyHash s1 st a t1).2 a t2).1 =
        ⟨.duplicateSentinel, 0, []⟩
    ∧ (sendMessageImpl pyHash s2 (sendMessageImpl pyHash s1 st a t1).2 a t2).2 =
        (sendMessageImpl pyHash s1 st a t1).2 := by
  have hkey : requestKey pyHash a t2 = requestKey pyHash a t1 := by
    simp [requestKey, hcol]
  have hmem : requestKey pyHash a t2 ∈
      (sendMessageImpl pyHash s1 st a t1).2.completedRequests := by
    rw [hkey, sendMessageImpl_fresh pyHash s1 st a t1 hconn hfresh]
    exact List.mem_cons_self _ _
  rw [sendMessageImpl_dup pyHash s2 (sendMessageImpl pyHash s1 st a t1).2 a t2 hmem]
  exact ⟨rfl, rfl⟩

/-- Witness for C10 with a constant hash function colliding two distinct
tasks. -/
theorem c10_dedup_by_hash_only_witness :
    (sendMessageImpl (fun _ => 0) (fun _ => .resp .invalid)
        (sendMessageImpl (fun _ => 0) (fun _ => .resp (.task [["r"]]))
          ⟨[], ["A"]⟩ "A" "task one").2 "A" "task two").1 =
      ⟨.duplicateSentinel, 0, []⟩
    ∧ (sendMessageImpl (fun _ => 0) (fun _ => .resp .invalid)
        (sendMessageImpl (fun _ => 0) (fun _ => .resp (.task [["r"]]))
          ⟨[], ["A"]⟩ "A" "task one").2 "A" "task two").2 =
      (sendMessageImpl (fun _ => 0) (fun _ => .resp (.task [["r"]]))
        ⟨[], ["A"]⟩ "A" "task one").2 :=
  c10_dedup_by_hash_only (fun _ => 0) (fun _ => .resp (.task [["r"]]))
    (fun _ => .resp .invalid) ⟨[], ["A"]⟩ "A" "task one" "task two"
    (by decide) rfl (by decide) (by decide)

/-- Claim C1: among any sequence of identical `(agent, task)`
submissions to a registered agent with a fresh key, exactly the first
one dispatches (one network call when its attempt is not throttled);
every subsequent identical submission returns the duplicate sentinel
with zero network calls; after the run the key is recorded and nothing
was removed from the dedup set; and in general `_send_message_impl`
never removes a key from the dedup set. -/
theorem c1_dedup_single_dispatch (pyHash : String → Int) (st : HostState)
    (a t : String) (s0 : Nat → SendResult) (rest : List (Nat → SendResult))
    (hconn : a ∈ st.connections)
    (hfresh : requestKey pyHash a t ∉ st.completedRequests)
    (hnt : attemptThrottles (s0 0) = false) :
    (runSubmissions pyHash st (((a, t), s0) :: rest.map fun s => ((a, t), s))).1 =
        (sendMessageImpl pyHash s0 st a t).1 ::
          rest.map (fun _ => ⟨.duplicateSentinel, 0, []⟩)
    ∧ (sendMessageImpl pyHash s0 st a t).1.sends = 1
    ∧ totalSends
        (runSubmissions pyHash st (((a, t), s0) :: rest.map fun s => ((a, t), s))).1 = 1
    ∧ (runSubmissions pyHash st
        (((a, t), s0) :: rest.map fun s => ((a, t), s))).2.completedRequests =
          requestKey pyHash a t :: st.completedRequests
    ∧ (∀ (send' : Nat → SendResult) (st' : HostState) (a' t' : String),
        st'.completedRequests ⊆
          (sendMessageImpl pyHash send' st' a' t').2.completedRequests) := by
  have hst1 : (sendMessageImpl pyHash s0 st a t).2 =
      { st with completedRequests := requestKey pyHash a t :: st.completedRequests } := by
    rw [sendMessageImpl_fresh pyHash s0 st a t hconn hfresh]
  have hmem : requestKey pyHash a t ∈
      (sendMessageImpl pyHash s0 st a t).2.completedRequests := by
    rw [hst1]
    exact List.mem_cons_self _ _
  have hdup := runSubmissions_dup pyHash (sendMessageImpl pyHash s0 st a t).2 a t hmem rest
  have hrun : runSubmissions pyHash st (((a, t), s0) :: rest.map fun s => ((a, t), s)) =
      ((sendMessageImpl pyHash s0 st a t).1 ::
          rest.map (fun _ => ⟨.duplicateSentinel, 0, []⟩),
        (sendMessageImpl pyHash s0 st a t).2) := by
    simp [runSubmissions, hdup]
  have hsends : (sendMessageImpl pyHash s0 st a t).1.sends = 1 := by
    rw [sendMessageImpl_fresh pyHash s0 st a t hconn hfresh]
    exact (sendLoopGo_entry_not_throttle a s0 hnt).1
  refine ⟨by rw [hrun], hsends, ?_, ?_, ?_⟩
  · rw [hrun]
    simp [totalSends, hsends, List.map_map, Function.comp_def]
  · rw [hrun]
    simp [hst1]
  · intro send' st' a' t'
    by_cases h1 : requestKey pyHash a' t' ∈ st'.completedRequests
    · rw [sendMessageImpl_dup pyHash send' st' a' t' h1]
      exact fun x hx => hx
    · by_cases h2 : a' ∈ st'.connections
      · rw [sendMessageImpl_fresh pyHash send' st' a' t' h2 h1]
        exact List.subset_cons_self _ _
      · simp [sendMessageImpl, h1, h2]

/-- Witness for C1 with one successful dispatch followed by one
duplicate submission. -/
theorem c1_dedup_single_dispatch_witness :
    (runSubmissions (fun _ => 0) ⟨[], ["A"]⟩
        ((("A", "x"), fun _ => SendResult.resp (.task [["ok"]])) ::
          (([fun _ => SendResult.exn "boom"] : List (Nat → SendResult)).map) fun s => (("A", "x"), s))).1 =
        (sendMessageImpl (fun _ => 0) (fun _ => SendResult.resp (.task [["ok"]]))
            ⟨[], ["A"]⟩ "A" "x").1 ::
          (([fun _ => SendResult.exn "boom"] : List (Nat → SendResult)).map) (fun _ => ⟨.duplicateSentinel, 0, []⟩)
    ∧ (sendMessageImpl (fun _ => 0) (fun _ => SendResult.resp (.task [["ok"]]))
        ⟨[], ["A"]⟩ "A" "x").1.sends = 1
    ∧ totalSends
        (runSubmissions (fun _ => 0) ⟨[], ["A"]⟩
          ((("A", "x"), fun _ => SendResult.resp (.task [["ok"]])) ::
            (([fun _ => SendResult.exn "boom"] : List (Nat → SendResult)).map) fun s => (("A", "x"), s))).1 = 1
    ∧ (runSubmissions (fun _ => 0) ⟨[], ["A"]⟩
        ((("A", "x"), fun _ => SendResult.resp (.task [["ok"]])) ::
          (([fun _ => SendResult.exn "boom"] : List (Nat → SendResult)).map) fun s => (("A", "x"), s))).2.completedRequests =
        requestKey (fun _ => 0) "A" "x" :: HostState.completedRequests ⟨[], ["A"]⟩
    ∧ (∀ (send' : Nat → SendResult) (st' : HostState) (a' t' : String),
        st'.completedRequests ⊆
          (sendMessageImpl (fun _ => 0) send' st' a' t').2.completedRequests) :=
  c1_dedup_single_dispatch (fun _ => 0) ⟨[], ["A"]⟩ "A" "x"
    (fun _ => SendResult.resp (.task [["ok"]])) [fun _ => SendResult.exn "boom"]
    (by decide) (by decide)
    (by decide : attemptThrottles (SendResult.resp (.task [["ok"]])) = false)

/-- Counterexample to claim C2: an invocation whose target agent is not
in the registry returns the not-found reply with the state unchanged —
the dedup key is NOT inserted, because `_send_message_impl` checks
`agent_name not in self.remote_agent_connections` before
`self.completed_requests.add(request_key)`. -/
theorem c2_counterexample :
    sendMessageImpl (fun _ => 0) (fun _ => .resp .invalid) ⟨[], []⟩
        "Connectivity_Troubleshooting_Agent" "ping host" =
      (⟨.agentNotFound "Connectivity_Troubleshooting_Agent", 0, []⟩, ⟨[], []⟩)
    ∧ requestKey (fun _ => 0) "Connectivity_Troubleshooting_Agent" "ping host" ∉
        (sendMessageImpl (fun _ => 0) (fun _ => .resp .invalid) ⟨[], []⟩
          "Connectivity_Troubleshooting_Agent" "ping host").2.completedRequests := by
  decide

/-- Claim C2 as amended: the invoker inserts the key into the dedup set
after the duplicate check and after resolving the target agent name,
but before attempting the RPC call: a not-found invocation returns the
not-found reply and leaves the dedup set unchanged, while any
invocation that reaches the dispatch path records the key whatever the
call's outcome. -/
theorem c2_amended_key_insertion (pyHash : String → Int) (send : Nat → SendResult)
    (st : HostState) (a t : String)
    (hfresh : requestKey pyHash a t ∉ st.completedRequests) :
    (a ∉ st.connections →
        sendMessageImpl pyHash send st a t = (⟨.agentNotFound a, 0, []⟩, st))
    ∧ (a ∈ st.connections →
        (sendMessageImpl pyHash send st a t).2.completedRequests =
          requestKey pyHash a t :: st.completedRequests) := by
  constructor
  · intro h
    simp [sendMessageImpl, hfresh, h]
  · intro h
    rw [sendMessageImpl_fresh pyHash send st a t h hfresh]

/-- Witness for the amended C2 at a not-found agent (and the insertion
half for the same inputs, vacuous or not as membership decides). -/
theorem c2_amended_key_insertion_witness :
    ("B" ∉ HostState.connections ⟨[], ["A"]⟩ →
        sendMessageImpl (fun _ => 0) (fun _ => .exn "boom") ⟨[], ["A"]⟩ "B" "x" =
          (⟨.agentNotFound "B", 0, []⟩, ⟨[], ["A"]⟩))
    ∧ ("B" ∈ HostState.connections ⟨[], ["A"]⟩ →
        (sendMessageImpl (fun _ => 0) (fun _ => .exn "boom")
            ⟨[], ["A"]⟩ "B" "x").2.completedRequests =
          requestKey (fun _ => 0) "B" "x" :: HostState.completedRequests ⟨[], ["A"]⟩) :=
  c2_amended_key_insertion (fun _ => 0) (fun _ => .exn "boom") ⟨[], ["A"]⟩ "B" "x"
    (by decide)

/-- Counterexample to claim C9: when the gateway access token is absent,
`host_agent_task` raises `RuntimeError("Gateway Access token is none")`
before entering its `try`/`finally`, so the failure propagates to the
caller and `finish()` is never issued. -/
theorem c9_counterexample :
    hostAgentTask none (.completed ["hello"]) =
      Except.error "Gateway Access token is none" := rfl

/-- Claim C9 as amended: for every execution of `host_agent_task` in
which the gateway access token is present, no failure propagates
uncaught: the run always yields a queue trace with `finish()` issued,
and a producer exception is converted into the terminal
`"Error: ..."` chunk appended after the chunks already streamed. -/
theorem c9_amended_clean_termination (tok : String) (outcome : ProducerOutcome) :
    ∃ q : QueueTrace, hostAgentTask (some tok) outcome = Except.ok q
      ∧ q.finished = true
      ∧ (∀ cs msg, outcome = .raised cs msg → q.items = cs ++ ["Error: " ++ msg])
      ∧ (∀ cs, outcome = .completed cs → q.items = cs) := by
  rcases outcome with cs | ⟨cs, msg⟩
  · refine ⟨⟨cs, true⟩, rfl, rfl, ?_, ?_⟩
    · intro cs' msg' h
      cases h
    · intro cs' h
      cases h
      rfl
  · refine ⟨⟨cs ++ ["Error: " ++ msg], true⟩, rfl, rfl, ?_, ?_⟩
    · intro cs' msg' h
      cases h
      rfl
    · intro cs' h
      cases h

/-- Witness for the amended C9 at a producer that raises mid-stream. -/
theorem c9_amended_clean_termination_witness :
    ∃ q : QueueTrace, hostAgentTask (some "token-abc") (.raised ["a"] "boom") =
        Except.ok q
      ∧ q.finished = true
      ∧ (∀ cs msg, ProducerOutcome.raised ["a"] "boom" = .raised cs msg →
          q.items = cs ++ ["Error: " ++ msg])
      ∧ (∀ cs, ProducerOutcome.raised ["a"] "boom" = .completed cs → q.items = cs) :=
  c9_amended_clean_termination "token-abc" (.raised ["a"] "boom")

end NetAIOps
